import Mathlib

/-!
Verification of the Vector Fleet ballistic solver
(`src/vector_fleet_solver.py`).

The Python floating-point arithmetic is idealised as real arithmetic:
`math.asin` becomes `Real.arcsin`, `math.sqrt` becomes `Real.sqrt`,
`2**0.5` becomes `Real.sqrt 2`, and the literal `3.141592653589793`
(the double closest to pi) becomes `Real.pi`.  Python's `ValueError`
raised for non-positive muzzle velocity is modelled by an
`Except String` result; the result dictionary is modelled by a record
whose absent (`None`) entries are `Option.none`.
-/

namespace VectorFleet

noncomputable section

/-- Gravitational constant `G = 9.81` from the source. -/
def G : ℝ := 9.81

/-- `clamp(x, lo, hi)` from the source. -/
def clamp (x lo hi : ℝ) : ℝ :=
  if x < lo then lo else if x > hi then hi else x

/-- `angle_for_range(v0, R, g)` from the source: the two elevation
roots of `R = (v0^2/g) * sin(2 theta)`, or `none` when out of range. -/
def angle_for_range (v0 R g : ℝ) : Option (ℝ × ℝ) :=
  let arg := g * R / v0 ^ 2
  if arg < -1 ∨ arg > 1 then
    none
  else
    let two_theta := Real.arcsin (clamp arg (-1) 1)
    some (0.5 * two_theta, 0.5 * (Real.pi - two_theta))

/-- `norm(dx, dy)` from the source. -/
def norm (dx dy : ℝ) : ℝ := Real.sqrt (dx * dx + dy * dy)

/-- `unit(dx, dy)` from the source. -/
def unit (dx dy : ℝ) : ℝ × ℝ :=
  let n := norm dx dy
  if n = 0 then (0, 0) else (dx / n, dy / n)

/-- Python's `math.degrees`. -/
def degrees (x : ℝ) : ℝ := x * 180 / Real.pi

/-- The horizontal-speed floor from `solve_fire`:
`vx = v0*cos(theta); if abs(vx) < 1e-6: vx = 1e-6`. -/
def flooredVx (v : ℝ) : ℝ := if |v| < 1e-6 then 1e-6 else v

/-- The inputs of `solve_fire`, flattened into components exactly as the
source unpacks them, with the iteration parameters. -/
structure Env where
  x0 : ℝ
  y0 : ℝ
  xt0 : ℝ
  yt0 : ℝ
  vox : ℝ
  voy : ℝ
  vtx : ℝ
  vty : ℝ
  vwx : ℝ
  vwy : ℝ
  v0 : ℝ
  prefer_high_arc : Bool
  max_iters : ℕ
  tol_time : ℝ

/-- The loop variables of `solve_fire` that survive the `for` loop and
are read by the non-convergence fallback (`dx`, `dy`, `R`, `xt`, `yt`,
`theta_rad`, `azimuth_rad`).  They are all assigned exactly when at
least one iteration ran to completion without returning. -/
structure LastVars where
  dx : ℝ
  dy : ℝ
  R : ℝ
  xt : ℝ
  yt : ℝ
  theta : ℝ
  azim : ℝ

/-- The result dictionary of `solve_fire`.  A key holding Python `None`
(or absent, for `max_range_m` on the reachable paths) is `none`. -/
structure FireResult where
  reachable : Bool
  theta_deg : Option ℝ
  azimuth_deg : Option ℝ
  time_s : Option ℝ
  impact_xy : Option (ℝ × ℝ)
  predicted_target_xy : Option (ℝ × ℝ)
  iterations : ℕ
  low_high_deg : Option (ℝ × ℝ)
  max_range_m : Option ℝ

/-- Python's `atan2(y, x)` (for real inputs; no signed zero). -/
def atan2 (y x : ℝ) : ℝ :=
  if 0 < x then Real.arctan (y / x)
  else if x < 0 then
    if 0 ≤ y then Real.arctan (y / x) + Real.pi
    else Real.arctan (y / x) - Real.pi
  else
    if 0 < y then Real.pi / 2
    else if y < 0 then -(Real.pi / 2)
    else 0

/-- The code after the `for` loop of `solve_fire` (lines 193-206): the
last estimate is returned marked reachable, with `low_high_deg = None`.
When no iteration completed (`lv = none`, only possible with
`max_iters = 0`), the `'dx' in locals()` / `'R' in locals()` guards
leave impact and prediction absent and `theta_rad`/`azimuth_rad` are
still `None`. -/
def fallback (e : Env) (t : ℝ) (lv : Option LastVars) : FireResult :=
  match lv with
  | none =>
      { reachable := true
        theta_deg := none
        azimuth_deg := none
        time_s := some t
        impact_xy := none
        predicted_target_xy := none
        iterations := e.max_iters
        low_high_deg := none
        max_range_m := none }
  | some v =>
      { reachable := true
        theta_deg := some (degrees v.theta)
        azimuth_deg := some (degrees v.azim)
        time_s := some t
        impact_xy := some (e.x0 + (unit v.dx v.dy).1 * v.R + (e.vox + e.vwx) * t,
                           e.y0 + (unit v.dx v.dy).2 * v.R + (e.voy + e.vwy) * t)
        predicted_target_xy := some (v.xt, v.yt)
        iterations := e.max_iters
        low_high_deg := none
        max_range_m := none }

/-- The `for it in range(1, max_iters+1)` loop of `solve_fire`,
written as structural recursion on the remaining iteration budget
`fuel`, with `it` the 1-based iteration counter and `lv` the surviving
loop variables of the previous completed iteration. -/
def solveFireLoop (e : Env) : ℕ → ℕ → ℝ → Option LastVars → FireResult
  | 0, _, t, lv => fallback e t lv
  | fuel + 1, it, t, _lv =>
      let xt := e.xt0 + e.vtx * t
      let yt := e.yt0 + e.vty * t
      let xc := xt - e.vox * t - e.vwx * t
      let yc := yt - e.voy * t - e.vwy * t
      let dx := xc - e.x0
      let dy := yc - e.y0
      let R := norm dx dy
      match angle_for_range e.v0 R G with
      | none =>
          { reachable := false
            theta_deg := none
            azimuth_deg := some (degrees (atan2 dy dx))
            time_s := none
            impact_xy := none
            predicted_target_xy := some (xt, yt)
            iterations := it
            low_high_deg := none
            max_range_m := some (e.v0 ^ 2 / G) }
      | some (low, high) =>
          let theta := if e.prefer_high_arc then high else low
          let azim := atan2 dy dx
          let vx := flooredVx (e.v0 * Real.cos theta)
          let t_new := R / vx
          if |t_new - t| < e.tol_time then
            { reachable := true
              theta_deg := some (degrees theta)
              azimuth_deg := some (degrees azim)
              time_s := some t_new
              impact_xy := some (e.x0 + (unit dx dy).1 * R + (e.vox + e.vwx) * t_new,
                                 e.y0 + (unit dx dy).2 * R + (e.voy + e.vwy) * t_new)
              predicted_target_xy := some (xt, yt)
              iterations := it
              low_high_deg := some (degrees low, degrees high)
              max_range_m := none }
          else
            solveFireLoop e fuel (it + 1) t_new
              (some { dx := dx, dy := dy, R := R, xt := xt, yt := yt,
                      theta := theta, azim := azim })

/-- `solve_fire` from the source: the `ValueError` for `v0 <= 0` is the
`Except.error` case; otherwise the time seed is computed and the
iteration loop entered with budget `max_iters` and counter `1`. -/
def solve_fire (e : Env) : Except String FireResult :=
  if e.v0 ≤ 0 then Except.error "Muzzle velocity must be positive."
  else
    let dx0 := e.xt0 - e.x0
    let dy0 := e.yt0 - e.y0
    let R0 := norm dx0 dy0
    let vx_guess := e.v0 / Real.sqrt 2
    let t0 := R0 / max vx_guess 1e-6
    Except.ok (solveFireLoop e e.max_iters 1 t0 none)

/-! ### Helper lemmas about `angle_for_range` -/

/-- On the reachable domain the inverter returns the explicit arcsin
roots. -/
theorem angle_for_range_eq_some (v0 R g : ℝ) (hv0 : 0 < v0) (hg : 0 < g)
    (hR0 : 0 ≤ R) (hRmax : R ≤ v0 ^ 2 / g) :
    angle_for_range v0 R g =
      some (0.5 * Real.arcsin (g * R / v0 ^ 2),
            0.5 * (Real.pi - Real.arcsin (g * R / v0 ^ 2))) := by
  have hv2 : 0 < v0 ^ 2 := pow_pos hv0 2
  have ha0 : 0 ≤ g * R / v0 ^ 2 := div_nonneg (mul_nonneg hg.le hR0) hv2.le
  have ha1 : g * R / v0 ^ 2 ≤ 1 := by
    rw [div_le_one hv2]
    calc g * R ≤ g * (v0 ^ 2 / g) := mul_le_mul_of_nonneg_left hRmax hg.le
      _ = v0 ^ 2 := by field_simp
  have hcond : ¬ (g * R / v0 ^ 2 < -1 ∨ g * R / v0 ^ 2 > 1) := by
    push_neg
    constructor <;> linarith
  have hclamp : clamp (g * R / v0 ^ 2) (-1) 1 = g * R / v0 ^ 2 := by
    unfold clamp
    rw [if_neg (by linarith), if_neg (by linarith)]
  simp only [angle_for_range]
  rw [if_neg hcond, hclamp]

/-- The argument of arcsin is in `[0, 1]` on the reachable domain, so
the arcsin value lies in `[0, pi/2]`. -/
theorem arcsin_arg_bounds (v0 R g : ℝ) (hv0 : 0 < v0) (hg : 0 < g)
    (hR0 : 0 ≤ R) :
    0 ≤ Real.arcsin (g * R / v0 ^ 2) ∧
      Real.arcsin (g * R / v0 ^ 2) ≤ Real.pi / 2 := by
  have hv2 : 0 < v0 ^ 2 := pow_pos hv0 2
  have ha0 : 0 ≤ g * R / v0 ^ 2 := div_nonneg (mul_nonneg hg.le hR0) hv2.le
  exact ⟨Real.arcsin_nonneg.mpr ha0, Real.arcsin_le_pi_div_two _⟩

/-! ### Claims about the Range-Angle Inverter -/

/-- C2: for every `v0 > 0`, `g > 0` and `0 ≤ R ≤ v0^2/g`,
`angle_for_range` returns a pair `(low, high)` with
`0 ≤ low ≤ pi/4 ≤ high ≤ pi/2` and `low + high = pi/2`. -/
theorem C2_angle_pair_bounds (v0 R g : ℝ) (hv0 : 0 < v0) (hg : 0 < g)
    (hR0 : 0 ≤ R) (hRmax : R ≤ v0 ^ 2 / g) :
    ∃ low high, angle_for_range v0 R g = some (low, high) ∧
      0 ≤ low ∧ low ≤ Real.pi / 4 ∧ Real.pi / 4 ≤ high ∧
      high ≤ Real.pi / 2 ∧ low + high = Real.pi / 2 := by
  obtain ⟨h0, h1⟩ := arcsin_arg_bounds v0 R g hv0 hg hR0
  refine ⟨_, _, angle_for_range_eq_some v0 R g hv0 hg hR0 hRmax,
    by linarith, by linarith, by linarith, ?_, by ring⟩
  have hpi : 0 < Real.pi := Real.pi_pos
  linarith

/-- C2 witness: concrete instance `v0 = 2`, `R = 1`, `g = 1`. -/
theorem C2_angle_pair_bounds_witness :
    ∃ low high, angle_for_range 2 1 1 = some (low, high) ∧
      0 ≤ low ∧ low ≤ Real.pi / 4 ∧ Real.pi / 4 ≤ high ∧
      high ≤ Real.pi / 2 ∧ low + high = Real.pi / 2 :=
  C2_angle_pair_bounds 2 1 1 (by norm_num) (by norm_num) (by norm_num)
    (by norm_num)

/-- Beyond the maximum ideal range the inverter returns `none`. -/
theorem angle_for_range_eq_none (v0 R g : ℝ) (hv0 : 0 < v0) (hg : 0 < g)
    (hR : v0 ^ 2 / g < R) : angle_for_range v0 R g = none := by
  have hv2 : 0 < v0 ^ 2 := pow_pos hv0 2
  have h1 : 1 < g * R / v0 ^ 2 := by
    rw [lt_div_iff₀ hv2]
    have := (div_lt_iff₀ hg).mp hR
    linarith
  simp only [angle_for_range]
  rw [if_pos (Or.inr h1)]

/-- C3: for every `v0 > 0`, `g > 0` and `R > v0^2/g`, `angle_for_range`
signals unreachability by returning `none`. -/
theorem C3_unreachable_none (v0 R g : ℝ) (hv0 : 0 < v0) (hg : 0 < g)
    (hR : v0 ^ 2 / g < R) : angle_for_range v0 R g = none :=
  angle_for_range_eq_none v0 R g hv0 hg hR

/-- C3 witness: concrete instance `v0 = 1`, `R = 2`, `g = 1`. -/
theorem C3_unreachable_none_witness : angle_for_range 1 2 1 = none :=
  C3_unreachable_none 1 2 1 (by norm_num) (by norm_num) (by norm_num)

/-- C8: at the exact boundary `R = v0^2/g` the two roots coincide at
`pi/4`. -/
theorem C8_boundary_forty_five (v0 g : ℝ) (hv0 : 0 < v0) (hg : 0 < g) :
    angle_for_range v0 (v0 ^ 2 / g) g = some (Real.pi / 4, Real.pi / 4) := by
  have h := angle_for_range_eq_some v0 (v0 ^ 2 / g) g hv0 hg
    (by positivity) le_rfl
  have harg : g * (v0 ^ 2 / g) / v0 ^ 2 = 1 := by
    field_simp
  rw [h, harg, Real.arcsin_one]
  simp only [Option.some.injEq, Prod.mk.injEq]
  constructor <;> ring

/-- C8 witness: concrete instance `v0 = 1`, `g = 1`. -/
theorem C8_boundary_forty_five_witness :
    angle_for_range 1 (1 ^ 2 / 1) 1 = some (Real.pi / 4, Real.pi / 4) :=
  C8_boundary_forty_five 1 1 (by norm_num) (by norm_num)

/-- C10: at `R = 0` the inverter returns exactly `(0, pi/2)`: a flat
low arc and a straight-up high arc, not an error. -/
theorem C10_zero_range (v0 g : ℝ) (hv0 : 0 < v0) (hg : 0 < g) :
    angle_for_range v0 0 g = some (0, Real.pi / 2) := by
  have h := angle_for_range_eq_some v0 0 g hv0 hg le_rfl (by positivity)
  have harg : g * 0 / v0 ^ 2 = 0 := by ring
  rw [h, harg, Real.arcsin_zero]
  simp only [Option.some.injEq, Prod.mk.injEq]
  constructor <;> ring

/-- C10 witness: concrete instance `v0 = 1`, `g = 1`. -/
theorem C10_zero_range_witness :
    angle_for_range 1 0 1 = some (0, Real.pi / 2) :=
  C10_zero_range 1 1 (by norm_num) (by norm_num)

/-! ### Claims about the Iterative Intercept Solver -/


/-- C6: for `v0 ≤ 0`, `solve_fire` rejects the input before entering
the iteration loop: the result is the `ValueError`, no loop iteration
runs and no partial solution is produced. -/
theorem C6_rejects_nonpositive_v0 (e : Env) (h : e.v0 ≤ 0) :
    solve_fire e = Except.error "Muzzle velocity must be positive." := by
  simp only [solve_fire]
  rw [if_pos h]

/-- Both fallback branches report `iterations = max_iters`. -/
theorem fallback_iterations (e : Env) (t : ℝ) (lv : Option LastVars) :
    (fallback e t lv).iterations = e.max_iters := by
  cases lv <;> rfl

/-- Upper bound on the reported iteration count: whenever the counter
and the remaining budget are consistent with a loop over
`range(1, max_iters+1)`, the reported count is at most `max_iters`. -/
theorem solveFireLoop_iterations_le (e : Env) :
    ∀ fuel it t lv, it + fuel ≤ e.max_iters + 1 →
      (solveFireLoop e fuel it t lv).iterations ≤ e.max_iters := by
  intro fuel
  induction fuel with
  | zero =>
      intro it t lv _
      rw [solveFireLoop, fallback_iterations]
  | succ n ih =>
      intro it t lv hle
      simp only [solveFireLoop]
      split
      · show it ≤ e.max_iters
        omega
      · split <;> split
        · show it ≤ e.max_iters
          omega
        · exact ih (it + 1) _ _ (by omega)
        · show it ≤ e.max_iters
          omega
        · exact ih (it + 1) _ _ (by omega)

/-- Lower bound on the reported iteration count when at least one
iteration is configured. -/
theorem solveFireLoop_iterations_ge (e : Env) (hmax : 1 ≤ e.max_iters) :
    ∀ fuel it t lv, 1 ≤ it →
      1 ≤ (solveFireLoop e fuel it t lv).iterations := by
  intro fuel
  induction fuel with
  | zero =>
      intro it t lv _
      rw [solveFireLoop, fallback_iterations]
      exact hmax
  | succ n ih =>
      intro it t lv hit
      simp only [solveFireLoop]
      split
      · exact hit
      · split <;> split
        · exact hit
        · exact ih (it + 1) _ _ (by omega)
        · exact hit
        · exact ih (it + 1) _ _ (by omega)

/-- C4: whenever an iteration of the loop finds the compensated range
unreachable, the solver returns at that iteration with
`reachable = false`, absent elevation, time and impact, best-effort
azimuth `atan2(dy, dx)` of the compensated displacement, the maximum
ideal range `v0^2/g`, the uncompensated predicted target position, and
the iteration count reached. -/
theorem C4_unreachable_early_return (e : Env) (fuel it : ℕ) (t : ℝ)
    (lv : Option LastVars) (dx dy : ℝ)
    (hdx : dx = e.xt0 + e.vtx * t - e.vox * t - e.vwx * t - e.x0)
    (hdy : dy = e.yt0 + e.vty * t - e.voy * t - e.vwy * t - e.y0)
    (hroots : angle_for_range e.v0 (norm dx dy) G = none) :
    solveFireLoop e (fuel + 1) it t lv =
      { reachable := false
        theta_deg := none
        azimuth_deg := some (degrees (atan2 dy dx))
        time_s := none
        impact_xy := none
        predicted_target_xy := some (e.xt0 + e.vtx * t, e.yt0 + e.vty * t)
        iterations := it
        low_high_deg := none
        max_range_m := some (e.v0 ^ 2 / G) } := by
  subst hdx hdy
  simp only [solveFireLoop]
  rw [hroots]

/-- C4 witness: a stationary scenario with `v0 = 1` against a target at
distance 1, which exceeds the maximum ideal range `1/9.81`. -/
theorem C4_unreachable_early_return_witness :
    solveFireLoop
      { x0 := 0, y0 := 0, xt0 := 1, yt0 := 0, vox := 0, voy := 0,
        vtx := 0, vty := 0, vwx := 0, vwy := 0, v0 := 1,
        prefer_high_arc := false, max_iters := 12, tol_time := 1e-3 }
      (11 + 1) 1 0 none =
      { reachable := false
        theta_deg := none
        azimuth_deg := some (degrees (atan2 0 1))
        time_s := none
        impact_xy := none
        predicted_target_xy := some (1 + 0 * 0, 0 + 0 * 0)
        iterations := 1
        low_high_deg := none
        max_range_m := some (1 ^ 2 / G) } := by
  have hn : norm 1 0 = 1 := by
    simp [norm]
  have hroots : angle_for_range 1 (norm 1 0) G = none := by
    rw [hn]
    exact angle_for_range_eq_none 1 1 G (by norm_num) (by norm_num [G])
      (by norm_num [G])
  exact C4_unreachable_early_return _ 11 1 0 none 1 0 (by norm_num)
    (by norm_num) hroots

/-- C7: for `v0 > 0` the solver is total: it returns a result (no
exception), the reported iteration count is at most `max_iters`, the
seed-time divisor is floored at `1e-6`, and the per-iteration
horizontal speed is floored at `1e-6` in magnitude. -/
theorem C7_total_no_exception (e : Env) (hv0 : 0 < e.v0) :
    ∃ r, solve_fire e = Except.ok r ∧ r.iterations ≤ e.max_iters ∧
      (1e-6 : ℝ) ≤ max (e.v0 / Real.sqrt 2) 1e-6 ∧
      ∀ v : ℝ, (1e-6 : ℝ) ≤ |flooredVx v| := by
  have hfloor : ∀ v : ℝ, (1e-6 : ℝ) ≤ |flooredVx v| := by
    intro v
    unfold flooredVx
    split
    · rw [abs_of_pos (by norm_num)]
    · next h => exact not_lt.mp h
  have hok : solve_fire e = Except.ok (solveFireLoop e e.max_iters 1
      (norm (e.xt0 - e.x0) (e.yt0 - e.y0) / max (e.v0 / Real.sqrt 2) 1e-6)
      none) := by
    simp only [solve_fire]
    rw [if_neg (not_le.mpr hv0)]
  exact ⟨_, hok,
    solveFireLoop_iterations_le e e.max_iters 1 _ _ (by omega),
    le_max_right _ _, hfloor⟩

/-- C7 witness: the concrete stationary scenario. -/
theorem C7_total_no_exception_witness :
    ∃ r, solve_fire
        { x0 := 0, y0 := 0, xt0 := 3, yt0 := 4, vox := 0, voy := 0,
          vtx := 0, vty := 0, vwx := 0, vwy := 0, v0 := 10,
          prefer_high_arc := false, max_iters := 12, tol_time := 1e-3 }
        = Except.ok r ∧ r.iterations ≤ 12 ∧
      (1e-6 : ℝ) ≤ max ((10 : ℝ) / Real.sqrt 2) 1e-6 ∧
      ∀ v : ℝ, (1e-6 : ℝ) ≤ |flooredVx v| :=
  C7_total_no_exception _ (by norm_num)

/-- C9: for `v0 > 0` and `max_iters ≥ 1`, the reported iteration count
lies in `[1, max_iters]`, and the non-convergence path (the code after
the loop) reports exactly `max_iters`. -/
theorem C9_iteration_count_range (e : Env) (hv0 : 0 < e.v0)
    (hmax : 1 ≤ e.max_iters) :
    ∃ r, solve_fire e = Except.ok r ∧ 1 ≤ r.iterations ∧
      r.iterations ≤ e.max_iters ∧
      ∀ t lv, (fallback e t lv).iterations = e.max_iters := by
  have hok : solve_fire e = Except.ok (solveFireLoop e e.max_iters 1
      (norm (e.xt0 - e.x0) (e.yt0 - e.y0) / max (e.v0 / Real.sqrt 2) 1e-6)
      none) := by
    simp only [solve_fire]
    rw [if_neg (not_le.mpr hv0)]
  exact ⟨_, hok,
    solveFireLoop_iterations_ge e hmax e.max_iters 1 _ _ le_rfl,
    solveFireLoop_iterations_le e e.max_iters 1 _ _ (by omega),
    fun t lv => fallback_iterations e t lv⟩

/-- C9 witness: the concrete stationary scenario. -/
theorem C9_iteration_count_range_witness :
    ∃ r, solve_fire
        { x0 := 0, y0 := 0, xt0 := 3, yt0 := 4, vox := 0, voy := 0,
          vtx := 0, vty := 0, vwx := 0, vwy := 0, v0 := 10,
          prefer_high_arc := false, max_iters := 12, tol_time := 1e-3 }
        = Except.ok r ∧ 1 ≤ r.iterations ∧ r.iterations ≤ 12 ∧
      ∀ t lv, (fallback
        { x0 := 0, y0 := 0, xt0 := 3, yt0 := 4, vox := 0, voy := 0,
          vtx := 0, vty := 0, vwx := 0, vwy := 0, v0 := 10,
          prefer_high_arc := false, max_iters := 12, tol_time := 1e-3 }
        t lv).iterations = 12 :=
  C9_iteration_count_range _ (by norm_num) (by norm_num)

/-- Every result of the loop that is marked reachable either carries
the low/high pair (the converged return) or comes from the
post-loop fallback, which reports `iterations = max_iters` and no
low/high pair. -/
theorem solveFireLoop_reachable_low_high (e : Env) :
    ∀ fuel it t lv r, solveFireLoop e fuel it t lv = r →
      r.reachable = true →
      (∃ p, r.low_high_deg = some p) ∨
        (r.iterations = e.max_iters ∧ r.low_high_deg = none) := by
  intro fuel
  induction fuel with
  | zero =>
      intro it t lv r hr _
      rw [solveFireLoop] at hr
      subst hr
      exact Or.inr ⟨fallback_iterations e t lv, by cases lv <;> rfl⟩
  | succ n ih =>
      intro it t lv r hr htrue
      simp only [solveFireLoop] at hr
      split at hr
      · subst hr
        simp at htrue
      · split at hr <;> split at hr
        · subst hr
          exact Or.inl ⟨_, rfl⟩
        · exact ih (it + 1) _ _ _ hr htrue
        · subst hr
          exact Or.inl ⟨_, rfl⟩
        · exact ih (it + 1) _ _ _ hr htrue

/-- C5 counterexample: a concrete input (stationary ships, target at
distance 1, `v0 = 4`, `max_iters = 1`, `tol_time = 0`) on which the
iteration cap is exhausted, so `solve_fire` returns a result marked
`reachable = true` whose `low_high_deg` field is absent, refuting the
claim that every reachable result carries the low/high pair. -/
theorem C5_claim_counterexample :
    (solve_fire
      { x0 := 0, y0 := 0, xt0 := 1, yt0 := 0, vox := 0, voy := 0,
        vtx := 0, vty := 0, vwx := 0, vwy := 0, v0 := 4,
        prefer_high_arc := false, max_iters := 1, tol_time := 0 }).map
      (fun r => (r.reachable, r.low_high_deg)) = Except.ok (true, none) := by
  have hn : norm 1 0 = 1 := by
    simp [norm]
  have hroots : angle_for_range 4 1 G =
      some (0.5 * Real.arcsin (G * 1 / 4 ^ 2),
            0.5 * (Real.pi - Real.arcsin (G * 1 / 4 ^ 2))) :=
    angle_for_range_eq_some 4 1 G (by norm_num) (by norm_num [G])
      (by norm_num) (by norm_num [G])
  have habs : ∀ y : ℝ, ¬ |y| < 0 := fun y => not_lt.mpr (abs_nonneg y)
  simp only [solve_fire, solveFireLoop]
  norm_num [hn, hroots, habs, fallback, Except.map]

/-- C5 amended: whenever `solve_fire` succeeds and marks the result
reachable, either the low/high pair is present (the converged path) or
the result comes from the exhausted iteration cap, in which case the
iteration count equals `max_iters` and the pair is absent. -/
theorem C5_reachable_low_high_amended (e : Env) (hv0 : 0 < e.v0) :
    ∃ r, solve_fire e = Except.ok r ∧
      (r.reachable = true →
        (∃ p, r.low_high_deg = some p) ∨
          (r.iterations = e.max_iters ∧ r.low_high_deg = none)) := by
  have hok : solve_fire e = Except.ok (solveFireLoop e e.max_iters 1
      (norm (e.xt0 - e.x0) (e.yt0 - e.y0) / max (e.v0 / Real.sqrt 2) 1e-6)
      none) := by
    simp only [solve_fire]
    rw [if_neg (not_le.mpr hv0)]
  exact ⟨_, hok,
    solveFireLoop_reachable_low_high e e.max_iters 1 _ none _ rfl⟩

/-- C5 amended witness: the concrete stationary scenario. -/
theorem C5_reachable_low_high_amended_witness :
    ∃ r, solve_fire
        { x0 := 0, y0 := 0, xt0 := 3, yt0 := 4, vox := 0, voy := 0,
          vtx := 0, vty := 0, vwx := 0, vwy := 0, v0 := 10,
          prefer_high_arc := false, max_iters := 12, tol_time := 1e-3 }
        = Except.ok r ∧
      (r.reachable = true →
        (∃ p, r.low_high_deg = some p) ∨
          (r.iterations = 12 ∧ r.low_high_deg = none)) :=
  C5_reachable_low_high_amended _ (by norm_num)

/-- One loop step in the stationary zero-wind case: the displacement,
range, roots, elevation and azimuth are independent of the running time
estimate, so the step either converges at once or recurses with the
fixed new time estimate. -/
theorem stationary_step (e : Env)
    (hvox : e.vox = 0) (hvoy : e.voy = 0) (hvtx : e.vtx = 0)
    (hvty : e.vty = 0) (hvwx : e.vwx = 0) (hvwy : e.vwy = 0)
    (hhigh : e.prefer_high_arc = false) (low high : ℝ)
    (hroots : angle_for_range e.v0
        (norm (e.xt0 - e.x0) (e.yt0 - e.y0)) G = some (low, high))
    (fuel it : ℕ) (t : ℝ) (lv : Option LastVars) :
    solveFireLoop e (fuel + 1) it t lv =
      (if |norm (e.xt0 - e.x0) (e.yt0 - e.y0) /
            flooredVx (e.v0 * Real.cos low) - t| < e.tol_time then
        { reachable := true
          theta_deg := some (degrees low)
          azimuth_deg := some (degrees (atan2 (e.yt0 - e.y0) (e.xt0 - e.x0)))
          time_s := some (norm (e.xt0 - e.x0) (e.yt0 - e.y0) /
            flooredVx (e.v0 * Real.cos low))
          impact_xy := some
            (e.x0 + (unit (e.xt0 - e.x0) (e.yt0 - e.y0)).1 *
              norm (e.xt0 - e.x0) (e.yt0 - e.y0),
             e.y0 + (unit (e.xt0 - e.x0) (e.yt0 - e.y0)).2 *
              norm (e.xt0 - e.x0) (e.yt0 - e.y0))
          predicted_target_xy := some (e.xt0, e.yt0)
          iterations := it
          low_high_deg := some (degrees low, degrees high)
          max_range_m := none }
      else
        solveFireLoop e fuel (it + 1)
          (norm (e.xt0 - e.x0) (e.yt0 - e.y0) /
            flooredVx (e.v0 * Real.cos low))
          (some { dx := e.xt0 - e.x0, dy := e.yt0 - e.y0,
                  R := norm (e.xt0 - e.x0) (e.yt0 - e.y0),
                  xt := e.xt0, yt := e.yt0, theta := low,
                  azim := atan2 (e.yt0 - e.y0) (e.xt0 - e.x0) })) := by
  simp only [solveFireLoop, hvox, hvoy, hvtx, hvty, hvwx, hvwy, hhigh,
    zero_mul, add_zero, sub_zero, zero_add, hroots, Bool.false_eq_true,
    if_false]

/-- In the stationary zero-wind case, once one iteration completed, all
later outcomes (converged or fallback) report the same elevation (the
selected low root) and the same azimuth. -/
theorem stationary_loop_invariant (e : Env)
    (hvox : e.vox = 0) (hvoy : e.voy = 0) (hvtx : e.vtx = 0)
    (hvty : e.vty = 0) (hvwx : e.vwx = 0) (hvwy : e.vwy = 0)
    (hhigh : e.prefer_high_arc = false) (low high : ℝ)
    (hroots : angle_for_range e.v0
        (norm (e.xt0 - e.x0) (e.yt0 - e.y0)) G = some (low, high)) :
    ∀ fuel it t,
      (solveFireLoop e fuel it t (some
          { dx := e.xt0 - e.x0, dy := e.yt0 - e.y0,
            R := norm (e.xt0 - e.x0) (e.yt0 - e.y0),
            xt := e.xt0, yt := e.yt0, theta := low,
            azim := atan2 (e.yt0 - e.y0) (e.xt0 - e.x0) })).reachable
        = true ∧
      (solveFireLoop e fuel it t (some
          { dx := e.xt0 - e.x0, dy := e.yt0 - e.y0,
            R := norm (e.xt0 - e.x0) (e.yt0 - e.y0),
            xt := e.xt0, yt := e.yt0, theta := low,
            azim := atan2 (e.yt0 - e.y0) (e.xt0 - e.x0) })).theta_deg
        = some (degrees low) ∧
      (solveFireLoop e fuel it t (some
          { dx := e.xt0 - e.x0, dy := e.yt0 - e.y0,
            R := norm (e.xt0 - e.x0) (e.yt0 - e.y0),
            xt := e.xt0, yt := e.yt0, theta := low,
            azim := atan2 (e.yt0 - e.y0) (e.xt0 - e.x0) })).azimuth_deg
        = some (degrees (atan2 (e.yt0 - e.y0) (e.xt0 - e.x0))) := by
  intro fuel
  induction fuel with
  | zero =>
      intro it t
      rw [solveFireLoop]
      exact ⟨rfl, rfl, rfl⟩
  | succ n ih =>
      intro it t
      rw [stationary_step e hvox hvoy hvtx hvty hvwx hvwy hhigh low high
        hroots n it t _]
      split
      · exact ⟨rfl, rfl, rfl⟩
      · exact ih (it + 1) _

/-- C1: for a stationary own ship, stationary target, zero wind,
`v0 > 0`, straight-line range `0 < R ≤ v0^2/g`, `max_iters ≥ 2` and
low arc preferred, `solve_fire` returns a reachable solution whose
azimuth is exactly `atan2(yt0 - y0, xt0 - x0)` and whose elevation is
exactly the low root of `angle_for_range(v0, R)`. -/
theorem C1_stationary_exact_solution (e : Env)
    (hvox : e.vox = 0) (hvoy : e.voy = 0) (hvtx : e.vtx = 0)
    (hvty : e.vty = 0) (hvwx : e.vwx = 0) (hvwy : e.vwy = 0)
    (hhigh : e.prefer_high_arc = false) (hv0 : 0 < e.v0)
    (hRpos : 0 < norm (e.xt0 - e.x0) (e.yt0 - e.y0))
    (hRmax : norm (e.xt0 - e.x0) (e.yt0 - e.y0) ≤ e.v0 ^ 2 / G)
    (hiters : 2 ≤ e.max_iters) :
    ∃ r low high, solve_fire e = Except.ok r ∧
      angle_for_range e.v0 (norm (e.xt0 - e.x0) (e.yt0 - e.y0)) G =
        some (low, high) ∧
      r.reachable = true ∧
      r.azimuth_deg = some (degrees (atan2 (e.yt0 - e.y0) (e.xt0 - e.x0))) ∧
      r.theta_deg = some (degrees low) := by
  have hroots := angle_for_range_eq_some e.v0
    (norm (e.xt0 - e.x0) (e.yt0 - e.y0)) G hv0
    (by norm_num [G]) hRpos.le hRmax
  have hok : solve_fire e = Except.ok (solveFireLoop e e.max_iters 1
      (norm (e.xt0 - e.x0) (e.yt0 - e.y0) / max (e.v0 / Real.sqrt 2) 1e-6)
      none) := by
    simp only [solve_fire]
    rw [if_neg (not_le.mpr hv0)]
  obtain ⟨m, hm⟩ : ∃ m, e.max_iters = m + 1 := ⟨e.max_iters - 1, by omega⟩
  have hQ :
      (solveFireLoop e e.max_iters 1
        (norm (e.xt0 - e.x0) (e.yt0 - e.y0) /
          max (e.v0 / Real.sqrt 2) 1e-6) none).reachable = true ∧
      (solveFireLoop e e.max_iters 1
        (norm (e.xt0 - e.x0) (e.yt0 - e.y0) /
          max (e.v0 / Real.sqrt 2) 1e-6) none).theta_deg
        = some (degrees (0.5 * Real.arcsin
            (G * norm (e.xt0 - e.x0) (e.yt0 - e.y0) / e.v0 ^ 2))) ∧
      (solveFireLoop e e.max_iters 1
        (norm (e.xt0 - e.x0) (e.yt0 - e.y0) /
          max (e.v0 / Real.sqrt 2) 1e-6) none).azimuth_deg
        = some (degrees (atan2 (e.yt0 - e.y0) (e.xt0 - e.x0))) := by
    rw [hm, stationary_step e hvox hvoy hvtx hvty hvwx hvwy hhigh _ _
      hroots m 1 _ none]
    split
    · exact ⟨rfl, rfl, rfl⟩
    · exact stationary_loop_invariant e hvox hvoy hvtx hvty hvwx hvwy
        hhigh _ _ hroots m 2 _
  exact ⟨_, _, _, hok, hroots, hQ.1, hQ.2.2, hQ.2.1⟩

/-- C1 witness: own ship at the origin, target at `(3, 4)` (range 5),
`v0 = 10`, all velocities and wind zero, default iteration limits. -/
theorem C1_stationary_exact_solution_witness :
    ∃ r low high,
      solve_fire
        { x0 := 0, y0 := 0, xt0 := 3, yt0 := 4, vox := 0, voy := 0,
          vtx := 0, vty := 0, vwx := 0, vwy := 0, v0 := 10,
          prefer_high_arc := false, max_iters := 12, tol_time := 1e-3 }
        = Except.ok r ∧
      angle_for_range 10 (norm (3 - 0) (4 - 0)) G = some (low, high) ∧
      r.reachable = true ∧
      r.azimuth_deg = some (degrees (atan2 (4 - 0) (3 - 0))) ∧
      r.theta_deg = some (degrees low) := by
  have h5 : norm ((3 : ℝ) - 0) ((4 : ℝ) - 0) = 5 := by
    have : ((3 : ℝ) - 0) * ((3 : ℝ) - 0) + ((4 : ℝ) - 0) * ((4 : ℝ) - 0)
        = 5 ^ 2 := by norm_num
    rw [norm, this, Real.sqrt_sq (by norm_num : (0 : ℝ) ≤ 5)]
  exact C1_stationary_exact_solution _ rfl rfl rfl rfl rfl rfl rfl
    (by norm_num)
    (by show (0 : ℝ) < norm ((3 : ℝ) - 0) ((4 : ℝ) - 0)
        rw [h5]; norm_num)
    (by show norm ((3 : ℝ) - 0) ((4 : ℝ) - 0) ≤ (10 : ℝ) ^ 2 / G
        rw [h5]; norm_num [G])
    (by norm_num)

/-- C6 witness: a concrete environment with `v0 = 0`. -/
theorem C6_rejects_nonpositive_v0_witness :
    solve_fire { x0 := 0, y0 := 0, xt0 := 100, yt0 := 0, vox := 0, voy := 0,
                 vtx := 0, vty := 0, vwx := 0, vwy := 0, v0 := 0,
                 prefer_high_arc := false, max_iters := 12, tol_time := 1e-3 }
      = Except.error "Muzzle velocity must be positive." :=
  C6_rejects_nonpositive_v0 _ le_rfl

end

end VectorFleet
